import Mathlib

/-!
Verification of the schema-to-model translator and the `structure` CLI
command of llm_structure.py. The translator
(`parse_schema_to_pydantic_model`) is embedded as a pure function over
YAML-like values; the command body is embedded as a function over an
abstract environment recording the fallible external stages (file read,
model resolution, network request), producing the observable trace of
stage events, standard output, standard error and abort status.
-/

namespace LlmStructure

/-- A YAML/JSON value as produced by `yaml.safe_load`. Mappings are
association lists of string keys (preserving insertion order, as Python
dicts do); keys are modelled as strings. -/
inductive YVal where
  | str : String → YVal
  | int : Int → YVal
  | bool : Bool → YVal
  | null : YVal
  | list : List YVal → YVal
  | map : List (String × YVal) → YVal

abbrev YMap := List (String × YVal)

/-- `dict.get(k)`: first binding of key `k`, if any. -/
def getYVal (m : YMap) (k : String) : Option YVal :=
  match m with
  | [] => none
  | (k', v) :: rest => if k' = k then some v else getYVal rest k

/-- Whether a YAML value is a string (used in theorem hypotheses). -/
def YVal.isStr : YVal → Bool
  | .str _ => true
  | _ => false

/-- The semantic field types a translated model can carry. -/
inductive PyType where
  | pstr | pint | pfloat | pbool | plist | pdict | pany
deriving DecidableEq, Repr

/-- A translated field: its semantic type and its required flag
(`required = false` means the field defaults to `None`/absent). -/
structure FieldSpec where
  type : PyType
  required : Bool
deriving DecidableEq, Repr

/-- The result of `create_model`: a named, ordered list of fields. -/
structure ValidationModel where
  name : String
  fields : List (String × FieldSpec)
deriving DecidableEq, Repr

/-- The simple-form lookup table (lines 14-21 of llm_structure.py):
`str`, `int`, `float`, `bool`, `list`, `dict`. -/
def simpleTypeMapping (s : String) : Option PyType :=
  if s = "str" then some .pstr
  else if s = "int" then some .pint
  else if s = "float" then some .pfloat
  else if s = "bool" then some .pbool
  else if s = "list" then some .plist
  else if s = "dict" then some .pdict
  else none

/-- `type_mapping.get(field_type, Any)` in the simple branch. A dict or
list value is unhashable, so `dict.get` raises `TypeError`; any other
non-matching hashable value falls back to `Any`. -/
def simpleFieldType : YVal → Except String PyType
  | .str s => .ok ((simpleTypeMapping s).getD .pany)
  | .list _ => .error "unhashable type: list"
  | .map _ => .error "unhashable type: dict"
  | _ => .ok .pany

/-- The JSON-Schema-branch lookup table (lines 35-42): `string`,
`integer`, `number`, `boolean`, `array`, `object`. -/
def jsonTypeMapping (s : String) : Option PyType :=
  if s = "string" then some .pstr
  else if s = "integer" then some .pint
  else if s = "number" then some .pfloat
  else if s = "boolean" then some .pbool
  else if s = "array" then some .plist
  else if s = "object" then some .pdict
  else none

/-- `type_mapping.get(field_schema.get("type"), Any)` in the JSON-Schema
branch: an absent `type` gives `Any`; unhashable values raise. -/
def jsonFieldType : Option YVal → Except String PyType
  | some (.str s) => .ok ((jsonTypeMapping s).getD .pany)
  | some (.list _) => .error "unhashable type: list"
  | some (.map _) => .error "unhashable type: dict"
  | some _ => .ok .pany
  | none => .ok .pany

/-- Substring test on lists of characters: does `needle` start `hay`? -/
def charsHasPrefix : List Char → List Char → Bool
  | [], _ => true
  | _ :: _, [] => false
  | a :: as, b :: bs => a == b && charsHasPrefix as bs

/-- Does `needle` occur contiguously in `hay`? -/
def charsContains (needle : List Char) : List Char → Bool
  | [] => needle.isEmpty
  | c :: t => charsHasPrefix needle (c :: t) || charsContains needle t

/-- Python `needle in hay` for strings (substring containment). -/
def strContains (hay needle : String) : Bool :=
  charsContains needle.toList hay.toList

/-- Python `field_name in required`: substring test for a string,
element equality for a list (only equal strings match), key membership
for a dict; non-iterable values raise `TypeError`. -/
def pyIn (name : String) : YVal → Except String Bool
  | .str s => .ok (strContains s name)
  | .list l => .ok (l.any fun v => match v with | .str s => s == name | _ => false)
  | .map m => .ok (m.any fun p => p.1 == name)
  | _ => .error "argument is not iterable"

/-- The simple-form field loop (lines 24-27): every field is required. -/
def simpleBranchFields : YMap → Except String (List (String × FieldSpec))
  | [] => .ok []
  | (fn, ft) :: rest => do
    let t ← simpleFieldType ft
    let tail ← simpleBranchFields rest
    pure ((fn, ⟨t, true⟩) :: tail)

/-- The simple-form branch (lines 9-29). -/
def simpleBranch (model_name : String) (fields_dict : YMap) :
    Except String ValidationModel := do
  let fields ← simpleBranchFields fields_dict
  pure ⟨model_name, fields⟩

/-- The JSON-Schema field loop (lines 44-48): each field schema must be
a mapping (`field_schema.get` otherwise raises), its `type` resolves via
the table, and the field is required iff its name is in `required`. -/
def jsonBranchFields (required : YVal) : YMap → Except String (List (String × FieldSpec))
  | [] => .ok []
  | (fn, fs) :: rest =>
    match fs with
    | .map fsm => do
      let t ← jsonFieldType (getYVal fsm "type")
      let req ← pyIn fn required
      let tail ← jsonBranchFields required rest
      pure ((fn, ⟨t, req⟩) :: tail)
    | _ => .error "field schema is not a mapping"

/-- `schema_dict.get("title", "DynamicModel")` passed to `create_model`:
a non-string name raises. -/
def modelNameOf (sd : YMap) : Except String String :=
  match getYVal sd "title" with
  | none => .ok "DynamicModel"
  | some (.str s) => .ok s
  | some _ => .error "model name must be a string"

/-- The JSON-Schema branch (lines 32-50): `properties` defaults to `{}`
and must be a mapping, `required` defaults to `[]`; the name is taken
from `title` last (at the `create_model` call). -/
def jsonBranch (sd : YMap) : Except String ValidationModel :=
  let properties := (getYVal sd "properties").getD (.map [])
  let required := (getYVal sd "required").getD (.list [])
  match properties with
  | .map props => do
    let fields ← jsonBranchFields required props
    let name ← modelNameOf sd
    pure ⟨name, fields⟩
  | _ => .error "properties is not a mapping"

/-- Lines 7-50 of llm_structure.py: the simple form (exactly one
top-level key whose value is itself a mapping) takes the first branch;
any other mapping takes the JSON-Schema branch; a non-mapping raises. -/
def parse_schema_to_pydantic_model : YVal → Except String ValidationModel
  | .map [(n, .map fd)] => simpleBranch n fd
  | .map sd => jsonBranch sd
  | _ => .error "schema is not a mapping"

/-- The simple-form test of line 9 as a Boolean. -/
def isSimpleForm : YMap → Bool
  | [(_, .map _)] => true
  | _ => false

/-- Total projection of `simpleFieldType` on the values it succeeds on. -/
def simpleResolve : YVal → PyType
  | .str s => (simpleTypeMapping s).getD .pany
  | _ => .pany

/-- Resolution of an optional `type` value in the JSON-Schema branch,
as a total function on the values it does not raise on. -/
def jsonResolveOpt : Option YVal → PyType
  | some (.str s) => (jsonTypeMapping s).getD .pany
  | _ => .pany

/-- Total projection of `jsonFieldType` for a field schema mapping. -/
def jsonResolveField : YVal → PyType
  | .map m => jsonResolveOpt (getYVal m "type")
  | _ => .pany

/-- The model name the JSON-Schema branch uses, with the fallback. -/
def titleName (sd : YMap) : String :=
  match getYVal sd "title" with
  | some (.str s) => s
  | _ => "DynamicModel"

/-- Membership of a name in a `required` list, as the code computes it. -/
def listHasStr (l : List YVal) (name : String) : Bool :=
  l.any fun v => match v with | .str s => s == name | _ => false

/-- Whether a `type` value is hashable (so `dict.get` does not raise). -/
def goodTypeVal : Option YVal → Bool
  | some (.list _) => false
  | some (.map _) => false
  | _ => true

/-- Whether a JSON-Schema field entry translates without raising. -/
def goodFieldSchema : YVal → Bool
  | .map m => goodTypeVal (getYVal m "type")
  | _ => false

/-- Whether the `title` value (if any) is usable as a model name. -/
def goodTitle (sd : YMap) : Bool :=
  match getYVal sd "title" with
  | none => true
  | some (.str _) => true
  | some _ => false

/-- Line 80: a model supports structured output iff its identifier
contains `o1` or `gpt-4o` and is not exactly `gpt-4`. -/
def supportsStructuredOutput (model_id : String) : Bool :=
  (strContains model_id "o1" || strContains model_id "gpt-4o") && (model_id != "gpt-4")

/-- The plain allow-list test without the `gpt-4` exclusion, stated from
the spec for the redundancy claim. -/
def plainAllowList (model_id : String) : Bool :=
  strContains model_id "o1" || strContains model_id "gpt-4o"

/-- The externally observable stages of one `structure` invocation. -/
inductive Event where
  | fileRead | modelResolve | networkCall
deriving DecidableEq, Repr

/-- Abstract environment for one invocation: the outcome of reading and
parsing the schema file, of `llm.get_model` (yielding the `model_id`),
and of the completion request (the first choice's message content, with
`none` standing for absent content). An `error` is an exception. -/
structure Env where
  fileContent : Except String YVal
  resolveModel : String → Except String String
  request : String → String → Except String (Option String)

/-- The observable result of one invocation: the stage events in order,
the lines printed to stdout and stderr, and whether the command
aborted (`click.Abort`, a non-zero exit). -/
structure RunResult where
  events : List Event
  stdout : List String
  stderr : List String
  aborted : Bool
deriving DecidableEq, Repr

/-- Lines 62-98: the body of the `structure` command. Every exception
inside the `try` block is caught at the top, printed to stderr as
`Error: <message>`, and turned into an abort. -/
def runStructure (env : Env) (prompt model : String) : RunResult :=
  match env.fileContent with
  | .error e => ⟨[.fileRead], [], ["Error: " ++ e], true⟩
  | .ok schema_dict =>
    match parse_schema_to_pydantic_model schema_dict with
    | .error e => ⟨[.fileRead], [], ["Error: " ++ e], true⟩
    | .ok _dynamicModel =>
      match env.resolveModel model with
      | .error e => ⟨[.fileRead, .modelResolve], [], ["Error: " ++ e], true⟩
      | .ok model_id =>
        if supportsStructuredOutput model_id then
          match env.request model_id prompt with
          | .error e =>
            ⟨[.fileRead, .modelResolve, .networkCall], [], ["Error: " ++ e], true⟩
          | .ok result =>
            match result with
            | some s =>
              if s = "" then
                ⟨[.fileRead, .modelResolve, .networkCall], [],
                  ["Error: No response from model"], true⟩
              else
                ⟨[.fileRead, .modelResolve, .networkCall], [s], [], false⟩
            | none =>
              ⟨[.fileRead, .modelResolve, .networkCall], [],
                ["Error: No response from model"], true⟩
        else
          ⟨[.fileRead, .modelResolve], [],
            ["Error: Model does not support structured output"], true⟩

/-- Is the event list a prefix of file-read, model-resolve,
network-call — the only stage order any invocation can exhibit? -/
def isStagePrefix : List Event → Bool
  | [] => true
  | [.fileRead] => true
  | [.fileRead, .modelResolve] => true
  | [.fileRead, .modelResolve, .networkCall] => true
  | _ => false

/-! ## Helper lemmas -/

theorem YVal.exists_of_isStr {v : YVal} (h : v.isStr = true) : ∃ s, v = .str s := by
  cases v <;> first | exact ⟨_, rfl⟩ | simp [YVal.isStr] at h

theorem ebind_ok {ε α β : Type} (a : α) (f : α → Except ε β) :
    ((Except.ok a : Except ε α) >>= f) = f a := rfl

theorem simpleBranchFields_all_str (inner : YMap)
    (h : inner.all (fun p => p.2.isStr) = true) :
    simpleBranchFields inner =
      .ok (inner.map fun p => (p.1, ⟨simpleResolve p.2, true⟩)) := by
  induction inner with
  | nil => rfl
  | cons p rest ih =>
    obtain ⟨fn, ft⟩ := p
    rw [List.all_cons, Bool.and_eq_true] at h
    obtain ⟨s, rfl⟩ := YVal.exists_of_isStr h.1
    simp [simpleBranchFields, simpleFieldType, simpleResolve, ih h.2, ebind_ok]

theorem parse_not_simple (sd : YMap) (h : isSimpleForm sd = false) :
    parse_schema_to_pydantic_model (.map sd) = jsonBranch sd := by
  cases sd with
  | nil => rfl
  | cons p t =>
    cases t with
    | cons q t2 =>
      obtain ⟨k1, v1⟩ := p
      obtain ⟨k2, v2⟩ := q
      cases v1 <;> rfl
    | nil =>
      obtain ⟨k, v⟩ := p
      cases v with
      | map fd => simp [isSimpleForm] at h
      | str s => rfl
      | int n => rfl
      | bool b => rfl
      | null => rfl
      | list l => rfl

theorem jsonFieldType_eq_of_good {o : Option YVal} (h : goodTypeVal o = true) :
    jsonFieldType o = .ok (jsonResolveOpt o) := by
  cases o with
  | none => rfl
  | some v => cases v <;> first | rfl | simp [goodTypeVal] at h

theorem jsonBranchFields_list (reqs : List YVal) (props : YMap)
    (h : props.all (fun p => goodFieldSchema p.2) = true) :
    jsonBranchFields (.list reqs) props =
      .ok (props.map fun p => (p.1, ⟨jsonResolveField p.2, listHasStr reqs p.1⟩)) := by
  induction props with
  | nil => rfl
  | cons p rest ih =>
    obtain ⟨fn, fs⟩ := p
    rw [List.all_cons, Bool.and_eq_true] at h
    obtain ⟨h1, h2⟩ := h
    cases fs with
    | map fsm =>
      simp only [goodFieldSchema] at h1
      simp [jsonBranchFields, jsonFieldType_eq_of_good h1, pyIn, jsonResolveField,
        listHasStr, ih h2, ebind_ok]
    | str s => simp [goodFieldSchema] at h1
    | int n => simp [goodFieldSchema] at h1
    | bool b => simp [goodFieldSchema] at h1
    | null => simp [goodFieldSchema] at h1
    | list l => simp [goodFieldSchema] at h1

theorem modelNameOf_eq_of_good (sd : YMap) (h : goodTitle sd = true) :
    modelNameOf sd = .ok (titleName sd) := by
  unfold modelNameOf titleName goodTitle at *
  cases ho : getYVal sd "title" with
  | none => rfl
  | some v => cases v <;> first | rfl | (rw [ho] at h; simp at h)

/-! ## Claims -/

/-- C1: a schema mapping with exactly one top-level key whose value is a
mapping of type-name strings takes the simple-form branch: the model is
named after the outer key, its fields are the inner entries in input
order, and every field is required. -/
theorem C1_simple_form_translation (name : String) (inner : YMap)
    (h : inner.all (fun p => p.2.isStr) = true) :
    parse_schema_to_pydantic_model (.map [(name, .map inner)]) =
      .ok ⟨name, inner.map fun p => (p.1, ⟨simpleResolve p.2, true⟩)⟩ := by
  simp [parse_schema_to_pydantic_model, simpleBranch, simpleBranchFields_all_str inner h]

/-- Witness for C1: the Scenario-A schema `{Person: {name: str, age: int}}`. -/
theorem C1_simple_form_translation_witness :
    ([(("name" : String), YVal.str "str"), ("age", YVal.str "int")].all
        (fun p => p.2.isStr) = true) ∧
    parse_schema_to_pydantic_model
        (.map [("Person", .map [("name", .str "str"), ("age", .str "int")])]) =
      .ok ⟨"Person", [("name", ⟨.pstr, true⟩), ("age", ⟨.pint, true⟩)]⟩ := by
  refine ⟨by decide, ?_⟩
  simpa using C1_simple_form_translation "Person"
    [("name", .str "str"), ("age", .str "int")] (by decide)

/-- C2: a mapping not matching the simple form takes the JSON-Schema
branch: the model is built from `properties` (defaulting to empty), a
field is required iff its name appears in the `required` sequence
(defaulting to empty), and the name comes from `title`, falling back to
`DynamicModel` when `title` is absent. -/
theorem C2_json_schema_branch (sd props : YMap) (reqs : List YVal)
    (h0 : isSimpleForm sd = false)
    (hp : (getYVal sd "properties").getD (.map []) = .map props)
    (hr : (getYVal sd "required").getD (.list []) = .list reqs)
    (hg : props.all (fun p => goodFieldSchema p.2) = true)
    (ht : goodTitle sd = true) :
    parse_schema_to_pydantic_model (.map sd) =
      .ok ⟨titleName sd,
        props.map fun p => (p.1, ⟨jsonResolveField p.2, listHasStr reqs p.1⟩)⟩ := by
  rw [parse_not_simple sd h0]
  unfold jsonBranch
  rw [hp, hr]
  simp [jsonBranchFields_list reqs props hg, modelNameOf_eq_of_good sd ht, ebind_ok]

/-- Witness for C2: the Scenario-B schema
`{"title": "Item", "properties": {"qty": {"type": "integer"}}, "required": []}`. -/
theorem C2_json_schema_branch_witness :
    (isSimpleForm [("title", .str "Item"),
        ("properties", .map [("qty", .map [("type", .str "integer")])]),
        ("required", .list [])] = false) ∧
    parse_schema_to_pydantic_model
        (.map [("title", .str "Item"),
          ("properties", .map [("qty", .map [("type", .str "integer")])]),
          ("required", .list [])]) =
      .ok ⟨"Item", [("qty", ⟨.pint, false⟩)]⟩ := by
  refine ⟨by decide, ?_⟩
  simpa using C2_json_schema_branch
    [("title", .str "Item"),
      ("properties", .map [("qty", .map [("type", .str "integer")])]),
      ("required", .list [])]
    [("qty", .map [("type", .str "integer")])] []
    (by decide) rfl rfl (by decide) (by decide)

/-- C3: a type-name string outside both lookup tables resolves to the
`any` type in either branch and translation still succeeds. -/
theorem C3_unknown_type_resolves_any (s : String)
    (h1 : simpleTypeMapping s = none) (h2 : jsonTypeMapping s = none) :
    simpleFieldType (.str s) = .ok .pany ∧
    jsonFieldType (some (.str s)) = .ok .pany ∧
    parse_schema_to_pydantic_model (.map [("M", .map [("f", .str s)])]) =
      .ok ⟨"M", [("f", ⟨.pany, true⟩)]⟩ ∧
    parse_schema_to_pydantic_model
        (.map [("properties", .map [("f", .map [("type", .str s)])]),
          ("required", .list [])]) =
      .ok ⟨"DynamicModel", [("f", ⟨.pany, false⟩)]⟩ := by
  refine ⟨by simp [simpleFieldType, h1], by simp [jsonFieldType, h2], ?_, ?_⟩
  · simp [parse_schema_to_pydantic_model, simpleBranch, simpleBranchFields,
      simpleFieldType, h1, ebind_ok]
  · rw [parse_not_simple
      [("properties", .map [("f", .map [("type", .str s)])]), ("required", .list [])]
      rfl]
    simp [jsonBranch, getYVal, jsonBranchFields, jsonFieldType, pyIn, modelNameOf,
      h2, ebind_ok]

/-- Witness for C3 at the type name `custom`. -/
theorem C3_unknown_type_resolves_any_witness :
    (simpleTypeMapping "custom" = none ∧ jsonTypeMapping "custom" = none) ∧
    simpleFieldType (.str "custom") = .ok .pany ∧
    jsonFieldType (some (.str "custom")) = .ok .pany ∧
    parse_schema_to_pydantic_model (.map [("M", .map [("f", .str "custom")])]) =
      .ok ⟨"M", [("f", ⟨.pany, true⟩)]⟩ ∧
    parse_schema_to_pydantic_model
        (.map [("properties", .map [("f", .map [("type", .str "custom")])]),
          ("required", .list [])]) =
      .ok ⟨"DynamicModel", [("f", ⟨.pany, false⟩)]⟩ :=
  ⟨⟨rfl, rfl⟩, C3_unknown_type_resolves_any "custom" rfl rfl⟩

theorem stage_order (env : Env) (prompt model : String) :
    isStagePrefix (runStructure env prompt model).events = true := by
  cases h1 : env.fileContent with
  | error e => simp [runStructure, h1, isStagePrefix]
  | ok v =>
    cases h2 : parse_schema_to_pydantic_model v with
    | error e => simp [runStructure, h1, h2, isStagePrefix]
    | ok dm =>
      cases h3 : env.resolveModel model with
      | error e => simp [runStructure, h1, h2, h3, isStagePrefix]
      | ok mid =>
        cases hs : supportsStructuredOutput mid with
        | false => simp [runStructure, h1, h2, h3, hs, isStagePrefix]
        | true =>
          cases h5 : env.request mid prompt with
          | error e => simp [runStructure, h1, h2, h3, hs, h5, isStagePrefix]
          | ok r =>
            cases r with
            | none => simp [runStructure, h1, h2, h3, hs, h5, isStagePrefix]
            | some s =>
              by_cases he : s = "" <;>
                simp [runStructure, h1, h2, h3, hs, h5, he, isStagePrefix]

/-- C4: once the model resolves to `gpt-4` the command signals the
unsupported-model error without a network call; in general the request
is issued iff the resolved identifier passes the support test. -/
theorem C4_gpt4_rejected_no_request (env : Env) (prompt model : String)
    (v : YVal) (dm : ValidationModel) (mid : String)
    (h1 : env.fileContent = .ok v)
    (h2 : parse_schema_to_pydantic_model v = .ok dm)
    (h3 : env.resolveModel model = .ok mid) :
    (Event.networkCall ∈ (runStructure env prompt model).events ↔
      supportsStructuredOutput mid = true) ∧
    (mid = "gpt-4" →
      runStructure env prompt model =
        ⟨[.fileRead, .modelResolve], [],
          ["Error: Model does not support structured output"], true⟩) := by
  constructor
  · cases hs : supportsStructuredOutput mid with
    | true =>
      simp only [runStructure, h1, h2, h3, hs, if_true]
      cases env.request mid prompt with
      | error e => simp
      | ok r =>
        cases r with
        | none => simp
        | some s => by_cases he : s = "" <;> simp [he]
    | false => simp [runStructure, h1, h2, h3, hs]
  · intro hmid
    subst hmid
    have hs : supportsStructuredOutput "gpt-4" = false := rfl
    simp [runStructure, h1, h2, h3, hs]

/-- Witness for C4: an invocation whose model resolves to `gpt-4`. -/
theorem C4_gpt4_rejected_no_request_witness :
    (Event.networkCall ∈
        (runStructure ⟨.ok (.map [("M", .map [])]), fun _ => .ok "gpt-4",
          fun _ _ => .ok (some "x")⟩ "hi" "gpt-4").events ↔
      supportsStructuredOutput "gpt-4" = true) ∧
    runStructure ⟨.ok (.map [("M", .map [])]), fun _ => .ok "gpt-4",
        fun _ _ => .ok (some "x")⟩ "hi" "gpt-4" =
      ⟨[.fileRead, .modelResolve], [],
        ["Error: Model does not support structured output"], true⟩ :=
  ⟨(C4_gpt4_rejected_no_request
      ⟨.ok (.map [("M", .map [])]), fun _ => .ok "gpt-4", fun _ _ => .ok (some "x")⟩
      "hi" "gpt-4" (.map [("M", .map [])]) ⟨"M", []⟩ "gpt-4" rfl rfl rfl).1,
   (C4_gpt4_rejected_no_request
      ⟨.ok (.map [("M", .map [])]), fun _ => .ok "gpt-4", fun _ _ => .ok (some "x")⟩
      "hi" "gpt-4" (.map [("M", .map [])]) ⟨"M", []⟩ "gpt-4" rfl rfl rfl).2 rfl⟩

/-- C5: a successful request whose first choice carries empty or absent
content raises the empty-response error and prints nothing to stdout. -/
theorem C5_empty_response_error (env : Env) (prompt model : String)
    (v : YVal) (dm : ValidationModel) (mid : String) (r : Option String)
    (h1 : env.fileContent = .ok v)
    (h2 : parse_schema_to_pydantic_model v = .ok dm)
    (h3 : env.resolveModel model = .ok mid)
    (h4 : supportsStructuredOutput mid = true)
    (h5 : env.request mid prompt = .ok r)
    (h6 : r = none ∨ r = some "") :
    (runStructure env prompt model).stdout = [] ∧
    (runStructure env prompt model).stderr = ["Error: No response from model"] ∧
    (runStructure env prompt model).aborted = true := by
  rcases h6 with rfl | rfl <;> simp [runStructure, h1, h2, h3, h4, h5]

/-- Witness for C5: a request that returns absent content. -/
theorem C5_empty_response_error_witness :
    (runStructure ⟨.ok (.map [("M", .map [])]), fun _ => .ok "gpt-4o",
        fun _ _ => .ok none⟩ "hi" "gpt-4o").stdout = [] ∧
    (runStructure ⟨.ok (.map [("M", .map [])]), fun _ => .ok "gpt-4o",
        fun _ _ => .ok none⟩ "hi" "gpt-4o").stderr =
      ["Error: No response from model"] ∧
    (runStructure ⟨.ok (.map [("M", .map [])]), fun _ => .ok "gpt-4o",
        fun _ _ => .ok none⟩ "hi" "gpt-4o").aborted = true :=
  C5_empty_response_error
    ⟨.ok (.map [("M", .map [])]), fun _ => .ok "gpt-4o", fun _ _ => .ok none⟩
    "hi" "gpt-4o" (.map [("M", .map [])]) ⟨"M", []⟩ "gpt-4o" none
    rfl rfl rfl (by decide) rfl (Or.inl rfl)

/-- C6: every invocation either aborts with empty stdout and a single
`Error: <message>` line on stderr, or succeeds with empty stderr and a
single stdout line — output is all-or-nothing. -/
theorem C6_errors_all_or_nothing (env : Env) (prompt model : String) :
    ((runStructure env prompt model).aborted = true ∧
      (runStructure env prompt model).stdout = [] ∧
      ∃ msg, (runStructure env prompt model).stderr = ["Error: " ++ msg]) ∨
    ((runStructure env prompt model).aborted = false ∧
      (runStructure env prompt model).stderr = [] ∧
      ∃ s, (runStructure env prompt model).stdout = [s]) := by
  cases h1 : env.fileContent with
  | error e =>
    have hrw : runStructure env prompt model =
        ⟨[.fileRead], [], ["Error: " ++ e], true⟩ := by simp [runStructure, h1]
    exact Or.inl ⟨by rw [hrw], by rw [hrw], e, by rw [hrw]⟩
  | ok v =>
    cases h2 : parse_schema_to_pydantic_model v with
    | error e =>
      have hrw : runStructure env prompt model =
          ⟨[.fileRead], [], ["Error: " ++ e], true⟩ := by simp [runStructure, h1, h2]
      exact Or.inl ⟨by rw [hrw], by rw [hrw], e, by rw [hrw]⟩
    | ok dm =>
      cases h3 : env.resolveModel model with
      | error e =>
        have hrw : runStructure env prompt model =
            ⟨[.fileRead, .modelResolve], [], ["Error: " ++ e], true⟩ := by
          simp [runStructure, h1, h2, h3]
        exact Or.inl ⟨by rw [hrw], by rw [hrw], e, by rw [hrw]⟩
      | ok mid =>
        cases hs : supportsStructuredOutput mid with
        | false =>
          have hrw : runStructure env prompt model =
              ⟨[.fileRead, .modelResolve], [],
                ["Error: Model does not support structured output"], true⟩ := by
            simp [runStructure, h1, h2, h3, hs]
          exact Or.inl ⟨by rw [hrw], by rw [hrw],
            "Model does not support structured output", by rw [hrw]; rfl⟩
        | true =>
          cases h5 : env.request mid prompt with
          | error e =>
            have hrw : runStructure env prompt model =
                ⟨[.fileRead, .modelResolve, .networkCall], [],
                  ["Error: " ++ e], true⟩ := by
              simp [runStructure, h1, h2, h3, hs, h5]
            exact Or.inl ⟨by rw [hrw], by rw [hrw], e, by rw [hrw]⟩
          | ok r =>
            cases r with
            | none =>
              have hrw : runStructure env prompt model =
                  ⟨[.fileRead, .modelResolve, .networkCall], [],
                    ["Error: No response from model"], true⟩ := by
                simp [runStructure, h1, h2, h3, hs, h5]
              exact Or.inl ⟨by rw [hrw], by rw [hrw],
                "No response from model", by rw [hrw]; rfl⟩
            | some s =>
              by_cases he : s = ""
              · have hrw : runStructure env prompt model =
                    ⟨[.fileRead, .modelResolve, .networkCall], [],
                      ["Error: No response from model"], true⟩ := by
                  simp [runStructure, h1, h2, h3, hs, h5, he]
                exact Or.inl ⟨by rw [hrw], by rw [hrw],
                  "No response from model", by rw [hrw]; rfl⟩
              · have hrw : runStructure env prompt model =
                    ⟨[.fileRead, .modelResolve, .networkCall], [s], [], false⟩ := by
                  simp [runStructure, h1, h2, h3, hs, h5, he]
                exact Or.inr ⟨by rw [hrw], by rw [hrw], s, by rw [hrw]⟩

/-- C7: a schema-file error stops the run at the file-read stage — no
model resolution, no network call — and in every execution the stages
can only occur in the order file-read, model-resolve, network-call. -/
theorem C7_file_error_precedes_resolution (env : Env) (prompt model : String)
    (e : String) (h : env.fileContent = .error e) :
    (runStructure env prompt model).events = [.fileRead] ∧
    Event.modelResolve ∉ (runStructure env prompt model).events ∧
    Event.networkCall ∉ (runStructure env prompt model).events ∧
    (runStructure env prompt model).stdout = [] ∧
    (runStructure env prompt model).aborted = true ∧
    (∀ env2 p2 m2, isStagePrefix (runStructure env2 p2 m2).events = true) := by
  refine ⟨?_, ?_, ?_, ?_, ?_, fun env2 p2 m2 => stage_order env2 p2 m2⟩ <;>
    simp [runStructure, h]

/-- Witness for C7: a missing schema file. -/
theorem C7_file_error_precedes_resolution_witness :
    (runStructure ⟨.error "No such file or directory", fun _ => .ok "gpt-4o",
        fun _ _ => .ok (some "x")⟩ "hi" "gpt-4o").events = [.fileRead] ∧
    Event.modelResolve ∉
      (runStructure ⟨.error "No such file or directory", fun _ => .ok "gpt-4o",
        fun _ _ => .ok (some "x")⟩ "hi" "gpt-4o").events ∧
    Event.networkCall ∉
      (runStructure ⟨.error "No such file or directory", fun _ => .ok "gpt-4o",
        fun _ _ => .ok (some "x")⟩ "hi" "gpt-4o").events ∧
    (runStructure ⟨.error "No such file or directory", fun _ => .ok "gpt-4o",
        fun _ _ => .ok (some "x")⟩ "hi" "gpt-4o").stdout = [] ∧
    (runStructure ⟨.error "No such file or directory", fun _ => .ok "gpt-4o",
        fun _ _ => .ok (some "x")⟩ "hi" "gpt-4o").aborted = true ∧
    isStagePrefix
      (runStructure ⟨.ok (.map [("M", .map [])]), fun _ => .ok "o1-mini",
        fun _ _ => .ok (some "y")⟩ "hi" "o1-mini").events = true :=
  ⟨(C7_file_error_precedes_resolution
      ⟨.error "No such file or directory", fun _ => .ok "gpt-4o",
        fun _ _ => .ok (some "x")⟩ "hi" "gpt-4o" "No such file or directory" rfl).1,
   (C7_file_error_precedes_resolution
      ⟨.error "No such file or directory", fun _ => .ok "gpt-4o",
        fun _ _ => .ok (some "x")⟩ "hi" "gpt-4o" "No such file or directory" rfl).2.1,
   (C7_file_error_precedes_resolution
      ⟨.error "No such file or directory", fun _ => .ok "gpt-4o",
        fun _ _ => .ok (some "x")⟩ "hi" "gpt-4o" "No such file or directory" rfl).2.2.1,
   (C7_file_error_precedes_resolution
      ⟨.error "No such file or directory", fun _ => .ok "gpt-4o",
        fun _ _ => .ok (some "x")⟩ "hi" "gpt-4o" "No such file or directory" rfl).2.2.2.1,
   (C7_file_error_precedes_resolution
      ⟨.error "No such file or directory", fun _ => .ok "gpt-4o",
        fun _ _ => .ok (some "x")⟩ "hi" "gpt-4o" "No such file or directory" rfl).2.2.2.2.1,
   (C7_file_error_precedes_resolution
      ⟨.error "No such file or directory", fun _ => .ok "gpt-4o",
        fun _ _ => .ok (some "x")⟩ "hi" "gpt-4o" "No such file or directory" rfl).2.2.2.2.2
     ⟨.ok (.map [("M", .map [])]), fun _ => .ok "o1-mini", fun _ _ => .ok (some "y")⟩
     "hi" "o1-mini"⟩

/-- C8: translation is deterministic — translating the same schema twice
yields structurally equal models. -/
theorem C8_translation_deterministic (v : YVal) (m₁ m₂ : ValidationModel)
    (h₁ : parse_schema_to_pydantic_model v = .ok m₁)
    (h₂ : parse_schema_to_pydantic_model v = .ok m₂) : m₁ = m₂ :=
  Except.ok.inj (h₁.symm.trans h₂)

/-- Witness for C8 at the schema `{M: {}}`. -/
theorem C8_translation_deterministic_witness :
    parse_schema_to_pydantic_model (.map [("M", .map [])]) = .ok ⟨"M", []⟩ ∧
    (⟨"M", []⟩ : ValidationModel) = ⟨"M", []⟩ :=
  ⟨rfl, C8_translation_deterministic (.map [("M", .map [])]) ⟨"M", []⟩ ⟨"M", []⟩ rfl rfl⟩

/-- C9: the two branches use disjoint type-name vocabularies: the simple
branch resolves only the Python-style names and sends the JSON-Schema
names to `any`, and conversely for the JSON-Schema branch. -/
theorem C9_branch_vocabularies_disjoint :
    (simpleFieldType (.str "str") = .ok .pstr ∧ simpleFieldType (.str "int") = .ok .pint ∧
     simpleFieldType (.str "float") = .ok .pfloat ∧ simpleFieldType (.str "bool") = .ok .pbool ∧
     simpleFieldType (.str "list") = .ok .plist ∧ simpleFieldType (.str "dict") = .ok .pdict) ∧
    (simpleFieldType (.str "string") = .ok .pany ∧ simpleFieldType (.str "integer") = .ok .pany ∧
     simpleFieldType (.str "number") = .ok .pany ∧ simpleFieldType (.str "boolean") = .ok .pany ∧
     simpleFieldType (.str "array") = .ok .pany ∧ simpleFieldType (.str "object") = .ok .pany) ∧
    (jsonFieldType (some (.str "string")) = .ok .pstr ∧
     jsonFieldType (some (.str "integer")) = .ok .pint ∧
     jsonFieldType (some (.str "number")) = .ok .pfloat ∧
     jsonFieldType (some (.str "boolean")) = .ok .pbool ∧
     jsonFieldType (some (.str "array")) = .ok .plist ∧
     jsonFieldType (some (.str "object")) = .ok .pdict) ∧
    (jsonFieldType (some (.str "str")) = .ok .pany ∧
     jsonFieldType (some (.str "int")) = .ok .pany ∧
     jsonFieldType (some (.str "float")) = .ok .pany ∧
     jsonFieldType (some (.str "bool")) = .ok .pany ∧
     jsonFieldType (some (.str "list")) = .ok .pany ∧
     jsonFieldType (some (.str "dict")) = .ok .pany) :=
  ⟨⟨rfl, rfl, rfl, rfl, rfl, rfl⟩, ⟨rfl, rfl, rfl, rfl, rfl, rfl⟩,
   ⟨rfl, rfl, rfl, rfl, rfl, rfl⟩, ⟨rfl, rfl, rfl, rfl, rfl, rfl⟩⟩

/-- C10: the explicit `gpt-4` exclusion in the support test is
redundant: the test equals the plain substring allow-list test, because
`gpt-4` contains neither `o1` nor `gpt-4o`. -/
theorem C10_gpt4_exclusion_redundant (model_id : String) :
    supportsStructuredOutput model_id = plainAllowList model_id := by
  by_cases h : model_id = "gpt-4"
  · subst h; rfl
  · have hb : (model_id != "gpt-4") = true := bne_iff_ne.mpr h
    simp [supportsStructuredOutput, plainAllowList, hb]

end LlmStructure
